import Mathlib

/-!
Shallow embedding of the Couchbase datasource connector
(`packages/server/src/integrations/couchbase.ts`, key-value-capable variant,
lines 220-465 of the packed source).  JavaScript thrown values, truthiness and
the couchbase client calls are modelled explicitly; connection handles are
identified by a handshake counter so that every real handshake yields a fresh
handle.  The underlying store's behaviour is an environment assigning an
outcome to every attempt index.
-/

namespace Couchbase

/-- A value thrown by JavaScript code: either an `Error` carrying a message,
or a non-`Error` value recorded by its string coercion (`String(err)`). -/
inductive JsErr where
  | error (message : String)
  | other (coerced : String)
deriving DecidableEq

/-- The `message` used for classification (couchbase.ts lines 346-349):
`err.message` for an `Error`, `String(err)` otherwise. -/
def messageOf : JsErr → String
  | .error m => m
  | .other s => s

/-- couchbase.ts line 241: `const retryErrorCodes = ["107", "100", "170", "201"]`. -/
def retryErrorCodes : List String := ["107", "100", "170", "201"]

/-- The stale-handle message literal of couchbase.ts line 353. -/
def staleClusterMessage : String := "parent cluster object has been closed"

/-- couchbase.ts line 242: `const defaultMaxRetries = 3`. -/
def defaultMaxRetries : Int := 3

/-- The error classification of couchbase.ts lines 351-354:
retryable iff the message is one of `retryErrorCodes` or equals the
stale-cluster literal. -/
def isRetryable (e : JsErr) : Bool :=
  retryErrorCodes.contains (messageOf e) || messageOf e == staleClusterMessage

/-- A JavaScript value, as far as truthiness and document contents matter. -/
inductive JsVal where
  | null
  | undef
  | str (s : String)
  | num (n : Int)
  | boolean (b : Bool)
  | obj (id : Nat)
deriving DecidableEq

/-- JavaScript truthiness of a `JsVal` (used by `if (!value)` in
`internalKeyValueStatement`, couchbase.ts line 381). -/
def truthy : JsVal → Bool
  | .null => false
  | .undef => false
  | .str s => s != ""
  | .num n => n != 0
  | .boolean b => b
  | .obj _ => true

/-- `SqlQuery` shape from the datasource definitions: `{ sql: string }`. -/
structure SqlQuery where
  sql : String
deriving DecidableEq

/-- Result of `cluster.query` (couchbase `QueryResult`): carries `rows`. -/
structure QueryResult where
  rows : List JsVal
deriving DecidableEq

/-- Result of a key-value primitive: a `GetResult` with decoded `content`,
or a `MutationResult` (opaque cas token). -/
inductive KvResult where
  | getRes (content : JsVal)
  | mutationRes (cas : Nat)
deriving DecidableEq

/-- The underlying store call performed by one attempt. -/
inductive StoreOp where
  | query (sql : String)
  | kvGet (key : String)
  | kvUpsert (key : String) (value : JsVal)
  | kvRemove (key : String)
deriving DecidableEq

/-- Observable events of an execution, in order: a `connect()` handshake
returning a fresh handle, an underlying store attempt, `console.error` of the
last error on exhaustion, `console.log("Unexpected error", err)` on a fatal
error. -/
inductive Event where
  | connectCall (handle : Nat)
  | attempt (op : StoreOp)
  | logError (e : JsErr)
  | logUnexpected (e : JsErr)
deriving DecidableEq

/-- Outcome of one underlying store attempt: a result or a thrown value. -/
inductive Outcome (α : Type) where
  | ok (res : α)
  | err (e : JsErr)
deriving DecidableEq

/-- `CouchbaseConfig` (couchbase.ts lines 244-252). `maxRetries` is a
JavaScript number, embedded as an integer. -/
structure CouchbaseConfig where
  certificatePath : String
  username : String
  password : String
  bucketName : String
  maxRetries : Int
  connectionString : String
  bucket : String
deriving DecidableEq

/-- The environment: the configuration plus the behaviour of the remote
store, given as the outcome of the i-th SQL attempt and of the i-th
key-value attempt. -/
structure Env where
  config : CouchbaseConfig
  queryAttempts : Nat → Outcome QueryResult
  kvAttempts : Nat → Outcome KvResult

/-- The connector's mutable connection fields (`cluster`, `bucket`,
couchbase.ts lines 320-321), plus a count of network handshakes performed.
Handles are identified by the handshake count at their creation, so each
handshake yields a fresh handle. -/
structure ConnState where
  handshakes : Nat
  cluster : Option Nat
  bucket : Option Nat
deriving DecidableEq

/-- `connect()` (couchbase.ts lines 327-339): performs a fresh network
handshake producing a new cluster handle, stores it in `this.cluster`,
derives the bucket handle via `cluster.bucket(...)` and stores it in
`this.bucket`, and returns the bucket handle. -/
def connect (s : ConnState) : Nat × ConnState :=
  (s.handshakes,
   { handshakes := s.handshakes + 1,
     cluster := some s.handshakes,
     bucket := some s.handshakes })

/-- Execution state threaded through the embedded methods: the connection
fields and the number of underlying store attempts performed so far (the
index into the environment's attempt outcomes). -/
structure ExecState where
  conn : ConnState
  attemptIx : Nat
deriving DecidableEq

/-- `internalQuery` (couchbase.ts lines 341-369): connect, run the query;
on a retryable failure reconnect and, if the budget `retry` is exhausted
(`retry <= 0`), log the error and throw a fresh
`Error("Couchbase max retries exceeded")`; otherwise recurse with budget
`retry ? retry - 1 : this.config.maxRetries`; on any other failure log it
and rethrow it unchanged.  Returns the result or thrown value, the final
execution state, and the list of events in order. -/
def internalQuery (env : Env) (sql : String) (retry : Int) (s : ExecState) :
    Except JsErr QueryResult × ExecState × List Event :=
  let c := connect s.conn
  match env.queryAttempts s.attemptIx with
  | .ok r =>
      (Except.ok r, ⟨c.2, s.attemptIx + 1⟩,
       [Event.connectCall c.1, Event.attempt (StoreOp.query sql)])
  | .err e =>
      if isRetryable e then
        let c2 := connect c.2
        if hle : retry ≤ 0 then
          (Except.error (JsErr.error "Couchbase max retries exceeded"),
           ⟨c2.2, s.attemptIx + 1⟩,
           [Event.connectCall c.1, Event.attempt (StoreOp.query sql),
            Event.connectCall c2.1, Event.logError e])
        else
          let r := internalQuery env sql
            (if retry = 0 then env.config.maxRetries else retry - 1)
            ⟨c2.2, s.attemptIx + 1⟩
          (r.1, r.2.1,
           Event.connectCall c.1 :: Event.attempt (StoreOp.query sql) ::
             Event.connectCall c2.1 :: r.2.2)
      else
        (Except.error e, ⟨c.2, s.attemptIx + 1⟩,
         [Event.connectCall c.1, Event.attempt (StoreOp.query sql),
          Event.logUnexpected e])
termination_by retry.toNat
decreasing_by
  simp_wf
  rw [if_neg (show ¬retry = 0 by omega)]
  omega

/-- The key-value dispatch of couchbase.ts lines 380-388: not a deletion and
a falsy value selects `get`, not a deletion and a truthy value selects
`upsert`, a deletion selects `remove`. -/
def kvDispatch (key : String) (value : JsVal) (deletion : Bool) : StoreOp :=
  if !deletion then
    if !(truthy value) then StoreOp.kvGet key
    else StoreOp.kvUpsert key value
  else StoreOp.kvRemove key

/-- `internalKeyValueStatement` (couchbase.ts lines 371-415): connect,
perform the dispatched key-value primitive; failure handling is identical to
`internalQuery`. -/
def internalKeyValueStatement (env : Env) (key : String) (value : JsVal)
    (deletion : Bool) (retry : Int) (s : ExecState) :
    Except JsErr KvResult × ExecState × List Event :=
  let c := connect s.conn
  let op := kvDispatch key value deletion
  match env.kvAttempts s.attemptIx with
  | .ok r =>
      (Except.ok r, ⟨c.2, s.attemptIx + 1⟩,
       [Event.connectCall c.1, Event.attempt op])
  | .err e =>
      if isRetryable e then
        let c2 := connect c.2
        if hle : retry ≤ 0 then
          (Except.error (JsErr.error "Couchbase max retries exceeded"),
           ⟨c2.2, s.attemptIx + 1⟩,
           [Event.connectCall c.1, Event.attempt op,
            Event.connectCall c2.1, Event.logError e])
        else
          let r := internalKeyValueStatement env key value deletion
            (if retry = 0 then env.config.maxRetries else retry - 1)
            ⟨c2.2, s.attemptIx + 1⟩
          (r.1, r.2.1,
           Event.connectCall c.1 :: Event.attempt op ::
             Event.connectCall c2.1 :: r.2.2)
      else
        (Except.error e, ⟨c.2, s.attemptIx + 1⟩,
         [Event.connectCall c.1, Event.attempt op, Event.logUnexpected e])
termination_by retry.toNat
decreasing_by
  simp_wf
  rw [if_neg (show ¬retry = 0 by omega)]
  omega

/-- Modelled from the spec: `getSqlQuery` is imported from `./utils`, whose
source is not part of this repository snapshot.  Per the spec it "normalizes
input to a canonical query shape": a raw string becomes `{ sql: string }`, a
structured query is kept as is. -/
def getSqlQuery : Sum SqlQuery String → SqlQuery
  | .inl q => q
  | .inr s => { sql := s }

/-- `read` (couchbase.ts lines 417-424): `await this.connect()`, run
`internalQuery` with budget `this.config.maxRetries`, return
`queryResult.rows` (a thrown value propagates). -/
def read (env : Env) (query : Sum SqlQuery String) (s : ExecState) :
    Except JsErr (List JsVal) × ExecState × List Event :=
  let c := connect s.conn
  let r := internalQuery env (getSqlQuery query).sql env.config.maxRetries
    ⟨c.2, s.attemptIx⟩
  (r.1.map (fun qr => qr.rows), r.2.1, Event.connectCall c.1 :: r.2.2)

/-- `insert` (couchbase.ts lines 426-435): `await this.connect()`, run
`internalKeyValueStatement(query.id, query.value, false, maxRetries)` and
return its result. -/
def insert (env : Env) (id : String) (value : JsVal) (s : ExecState) :
    Except JsErr KvResult × ExecState × List Event :=
  let c := connect s.conn
  let r := internalKeyValueStatement env id value false env.config.maxRetries
    ⟨c.2, s.attemptIx⟩
  (r.1, r.2.1, Event.connectCall c.1 :: r.2.2)

/-- Number of underlying store attempts recorded in an event list. -/
def isAttemptEvent : Event → Bool
  | .attempt _ => true
  | _ => false

def countAttempts (evs : List Event) : Nat :=
  (evs.filter isAttemptEvent).length

/-- Number of `connect()` handshakes recorded in an event list. -/
def isConnectEvent : Event → Bool
  | .connectCall _ => true
  | _ => false

def countConnects (evs : List Event) : Nat :=
  (evs.filter isConnectEvent).length

@[simp] lemma countAttempts_nil : countAttempts [] = 0 := rfl

@[simp] lemma countAttempts_cons_connect (h : Nat) (l : List Event) :
    countAttempts (Event.connectCall h :: l) = countAttempts l := by
  simp [countAttempts, isAttemptEvent, List.filter]

@[simp] lemma countAttempts_cons_attempt (op : StoreOp) (l : List Event) :
    countAttempts (Event.attempt op :: l) = countAttempts l + 1 := by
  simp [countAttempts, isAttemptEvent, List.filter]

@[simp] lemma countAttempts_cons_logError (e : JsErr) (l : List Event) :
    countAttempts (Event.logError e :: l) = countAttempts l := by
  simp [countAttempts, isAttemptEvent, List.filter]

@[simp] lemma countAttempts_cons_logUnexpected (e : JsErr) (l : List Event) :
    countAttempts (Event.logUnexpected e :: l) = countAttempts l := by
  simp [countAttempts, isAttemptEvent, List.filter]

@[simp] lemma countConnects_nil : countConnects [] = 0 := rfl

@[simp] lemma countConnects_cons_connect (h : Nat) (l : List Event) :
    countConnects (Event.connectCall h :: l) = countConnects l + 1 := by
  simp [countConnects, isConnectEvent, List.filter]

@[simp] lemma countConnects_cons_attempt (op : StoreOp) (l : List Event) :
    countConnects (Event.attempt op :: l) = countConnects l := by
  simp [countConnects, isConnectEvent, List.filter]

@[simp] lemma countConnects_cons_logError (e : JsErr) (l : List Event) :
    countConnects (Event.logError e :: l) = countConnects l := by
  simp [countConnects, isConnectEvent, List.filter]

@[simp] lemma countConnects_cons_logUnexpected (e : JsErr) (l : List Event) :
    countConnects (Event.logUnexpected e :: l) = countConnects l := by
  simp [countConnects, isConnectEvent, List.filter]

/-! One-step unfolding lemmas for the retry executors. -/

lemma internalQuery_success (env : Env) (sql : String) (retry : Int)
    (s : ExecState) (r : QueryResult)
    (he : env.queryAttempts s.attemptIx = Outcome.ok r) :
    internalQuery env sql retry s =
      (Except.ok r, ⟨(connect s.conn).2, s.attemptIx + 1⟩,
       [Event.connectCall (connect s.conn).1,
        Event.attempt (StoreOp.query sql)]) := by
  rw [internalQuery]
  simp [he]

lemma internalQuery_fatal (env : Env) (sql : String) (retry : Int)
    (s : ExecState) (e : JsErr)
    (he : env.queryAttempts s.attemptIx = Outcome.err e)
    (hf : isRetryable e = false) :
    internalQuery env sql retry s =
      (Except.error e, ⟨(connect s.conn).2, s.attemptIx + 1⟩,
       [Event.connectCall (connect s.conn).1,
        Event.attempt (StoreOp.query sql), Event.logUnexpected e]) := by
  rw [internalQuery]
  simp [he, hf]

lemma internalQuery_exhaust (env : Env) (sql : String) (retry : Int)
    (s : ExecState) (e : JsErr) (hle : retry ≤ 0)
    (he : env.queryAttempts s.attemptIx = Outcome.err e)
    (hr : isRetryable e = true) :
    internalQuery env sql retry s =
      (Except.error (JsErr.error "Couchbase max retries exceeded"),
       ⟨(connect (connect s.conn).2).2, s.attemptIx + 1⟩,
       [Event.connectCall (connect s.conn).1,
        Event.attempt (StoreOp.query sql),
        Event.connectCall (connect (connect s.conn).2).1,
        Event.logError e]) := by
  rw [internalQuery]
  simp [he, hr, hle]

lemma internalQuery_retryStep (env : Env) (sql : String) (retry : Int)
    (s : ExecState) (e : JsErr) (hgt : 0 < retry)
    (he : env.queryAttempts s.attemptIx = Outcome.err e)
    (hr : isRetryable e = true) :
    internalQuery env sql retry s =
      ((internalQuery env sql (retry - 1)
          ⟨(connect (connect s.conn).2).2, s.attemptIx + 1⟩).1,
       (internalQuery env sql (retry - 1)
          ⟨(connect (connect s.conn).2).2, s.attemptIx + 1⟩).2.1,
       Event.connectCall (connect s.conn).1 ::
         Event.attempt (StoreOp.query sql) ::
         Event.connectCall (connect (connect s.conn).2).1 ::
         (internalQuery env sql (retry - 1)
            ⟨(connect (connect s.conn).2).2, s.attemptIx + 1⟩).2.2) := by
  rw [internalQuery]
  simp [he, hr, show ¬retry ≤ 0 by omega, show ¬retry = 0 by omega]

lemma internalKV_success (env : Env) (key : String) (value : JsVal)
    (deletion : Bool) (retry : Int) (s : ExecState) (r : KvResult)
    (he : env.kvAttempts s.attemptIx = Outcome.ok r) :
    internalKeyValueStatement env key value deletion retry s =
      (Except.ok r, ⟨(connect s.conn).2, s.attemptIx + 1⟩,
       [Event.connectCall (connect s.conn).1,
        Event.attempt (kvDispatch key value deletion)]) := by
  rw [internalKeyValueStatement]
  simp [he]

lemma internalKV_fatal (env : Env) (key : String) (value : JsVal)
    (deletion : Bool) (retry : Int) (s : ExecState) (e : JsErr)
    (he : env.kvAttempts s.attemptIx = Outcome.err e)
    (hf : isRetryable e = false) :
    internalKeyValueStatement env key value deletion retry s =
      (Except.error e, ⟨(connect s.conn).2, s.attemptIx + 1⟩,
       [Event.connectCall (connect s.conn).1,
        Event.attempt (kvDispatch key value deletion),
        Event.logUnexpected e]) := by
  rw [internalKeyValueStatement]
  simp [he, hf]

lemma internalKV_exhaust (env : Env) (key : String) (value : JsVal)
    (deletion : Bool) (retry : Int) (s : ExecState) (e : JsErr)
    (hle : retry ≤ 0)
    (he : env.kvAttempts s.attemptIx = Outcome.err e)
    (hr : isRetryable e = true) :
    internalKeyValueStatement env key value deletion retry s =
      (Except.error (JsErr.error "Couchbase max retries exceeded"),
       ⟨(connect (connect s.conn).2).2, s.attemptIx + 1⟩,
       [Event.connectCall (connect s.conn).1,
        Event.attempt (kvDispatch key value deletion),
        Event.connectCall (connect (connect s.conn).2).1,
        Event.logError e]) := by
  rw [internalKeyValueStatement]
  simp [he, hr, hle]

lemma internalKV_retryStep (env : Env) (key : String) (value : JsVal)
    (deletion : Bool) (retry : Int) (s : ExecState) (e : JsErr)
    (hgt : 0 < retry)
    (he : env.kvAttempts s.attemptIx = Outcome.err e)
    (hr : isRetryable e = true) :
    internalKeyValueStatement env key value deletion retry s =
      ((internalKeyValueStatement env key value deletion (retry - 1)
          ⟨(connect (connect s.conn).2).2, s.attemptIx + 1⟩).1,
       (internalKeyValueStatement env key value deletion (retry - 1)
          ⟨(connect (connect s.conn).2).2, s.attemptIx + 1⟩).2.1,
       Event.connectCall (connect s.conn).1 ::
         Event.attempt (kvDispatch key value deletion) ::
         Event.connectCall (connect (connect s.conn).2).1 ::
         (internalKeyValueStatement env key value deletion (retry - 1)
            ⟨(connect (connect s.conn).2).2, s.attemptIx + 1⟩).2.2) := by
  rw [internalKeyValueStatement]
  simp [he, hr, show ¬retry ≤ 0 by omega, show ¬retry = 0 by omega]

/-! Behaviour under a persistently retryable store. -/

lemma internalQuery_persistent (env : Env) (sql : String)
    (hq : ∀ j, ∃ e, env.queryAttempts j = Outcome.err e ∧ isRetryable e = true) :
    ∀ (n : Nat) (s : ExecState),
      countAttempts (internalQuery env sql (n : Int) s).2.2 = n + 1 ∧
      (internalQuery env sql (n : Int) s).1 =
        Except.error (JsErr.error "Couchbase max retries exceeded") := by
  intro n
  induction n with
  | zero =>
    intro s
    obtain ⟨e, he, hr⟩ := hq s.attemptIx
    simp only [Nat.cast_zero]
    rw [internalQuery_exhaust env sql 0 s e (by omega) he hr]
    simp
  | succ k ih =>
    intro s
    obtain ⟨e, he, hr⟩ := hq s.attemptIx
    rw [internalQuery_retryStep env sql ((k + 1 : Nat) : Int) s e
      (by positivity) he hr]
    have hcast : ((k + 1 : Nat) : Int) - 1 = (k : Int) := by push_cast; ring
    rw [hcast]
    obtain ⟨ih1, ih2⟩ := ih ⟨(connect (connect s.conn).2).2, s.attemptIx + 1⟩
    refine ⟨?_, ih2⟩
    simp [ih1]

lemma internalKV_persistent (env : Env) (key : String) (value : JsVal)
    (deletion : Bool)
    (hkv : ∀ j, ∃ e, env.kvAttempts j = Outcome.err e ∧ isRetryable e = true) :
    ∀ (n : Nat) (s : ExecState),
      countAttempts
          (internalKeyValueStatement env key value deletion (n : Int) s).2.2 =
        n + 1 ∧
      (internalKeyValueStatement env key value deletion (n : Int) s).1 =
        Except.error (JsErr.error "Couchbase max retries exceeded") := by
  intro n
  induction n with
  | zero =>
    intro s
    obtain ⟨e, he, hr⟩ := hkv s.attemptIx
    simp only [Nat.cast_zero]
    rw [internalKV_exhaust env key value deletion 0 s e (by omega) he hr]
    simp
  | succ k ih =>
    intro s
    obtain ⟨e, he, hr⟩ := hkv s.attemptIx
    rw [internalKV_retryStep env key value deletion ((k + 1 : Nat) : Int) s e
      (by positivity) he hr]
    have hcast : ((k + 1 : Nat) : Int) - 1 = (k : Int) := by push_cast; ring
    rw [hcast]
    obtain ⟨ih1, ih2⟩ := ih ⟨(connect (connect s.conn).2).2, s.attemptIx + 1⟩
    refine ⟨?_, ih2⟩
    simp [ih1]

/-! Every store attempt in a trace is immediately preceded by a `connect()`
handshake.  `guardedFrom b l` scans `l` with `b` recording whether the
previous event was a handshake. -/

def guardedFrom : Bool → List Event → Bool
  | _, [] => true
  | _, Event.connectCall _ :: rest => guardedFrom true rest
  | prevConnect, Event.attempt _ :: rest => prevConnect && guardedFrom false rest
  | _, Event.logError _ :: rest => guardedFrom false rest
  | _, Event.logUnexpected _ :: rest => guardedFrom false rest

/-- Every attempt in the event list happens right after a fresh handshake. -/
def attemptsGuarded (evs : List Event) : Bool := guardedFrom false evs

lemma guardedFrom_internalQuery (env : Env) (sql : String) :
    ∀ (k : Nat) (retry : Int), retry.toNat = k → ∀ (s : ExecState) (b : Bool),
      guardedFrom b (internalQuery env sql retry s).2.2 = true := by
  intro k
  induction k with
  | zero =>
    intro retry hk s b
    match hout : env.queryAttempts s.attemptIx with
    | Outcome.ok r =>
      rw [internalQuery_success env sql retry s r hout]
      simp [guardedFrom]
    | Outcome.err e =>
      match hr : isRetryable e with
      | false =>
        rw [internalQuery_fatal env sql retry s e hout hr]
        simp [guardedFrom]
      | true =>
        rw [internalQuery_exhaust env sql retry s e (by omega) hout hr]
        simp [guardedFrom]
  | succ n ih =>
    intro retry hk s b
    match hout : env.queryAttempts s.attemptIx with
    | Outcome.ok r =>
      rw [internalQuery_success env sql retry s r hout]
      simp [guardedFrom]
    | Outcome.err e =>
      match hr : isRetryable e with
      | false =>
        rw [internalQuery_fatal env sql retry s e hout hr]
        simp [guardedFrom]
      | true =>
        rw [internalQuery_retryStep env sql retry s e (by omega) hout hr]
        simp only [guardedFrom, Bool.true_and]
        exact ih (retry - 1) (by omega)
          ⟨(connect (connect s.conn).2).2, s.attemptIx + 1⟩ true

/-- Every attempt performed by `internalKeyValueStatement` is the one store
primitive selected by the dispatch on `(value, deletion)`. -/
lemma internalKV_ops (env : Env) (key : String) (value : JsVal)
    (deletion : Bool) :
    ∀ (k : Nat) (retry : Int), retry.toNat = k → ∀ (s : ExecState) (op : StoreOp),
      Event.attempt op ∈
          (internalKeyValueStatement env key value deletion retry s).2.2 →
      op = kvDispatch key value deletion := by
  intro k
  induction k with
  | zero =>
    intro retry hk s op hmem
    match hout : env.kvAttempts s.attemptIx with
    | Outcome.ok r =>
      rw [internalKV_success env key value deletion retry s r hout] at hmem
      simp at hmem
      exact hmem
    | Outcome.err e =>
      match hr : isRetryable e with
      | false =>
        rw [internalKV_fatal env key value deletion retry s e hout hr] at hmem
        simp at hmem
        exact hmem
      | true =>
        rw [internalKV_exhaust env key value deletion retry s e (by omega)
          hout hr] at hmem
        simp at hmem
        exact hmem
  | succ n ih =>
    intro retry hk s op hmem
    match hout : env.kvAttempts s.attemptIx with
    | Outcome.ok r =>
      rw [internalKV_success env key value deletion retry s r hout] at hmem
      simp at hmem
      exact hmem
    | Outcome.err e =>
      match hr : isRetryable e with
      | false =>
        rw [internalKV_fatal env key value deletion retry s e hout hr] at hmem
        simp at hmem
        exact hmem
      | true =>
        rw [internalKV_retryStep env key value deletion retry s e (by omega)
          hout hr] at hmem
        simp only [List.mem_cons] at hmem
        rcases hmem with h | h | h | h
        · cases h
        · injection h
        · cases h
        · exact ih (retry - 1) (by omega)
            ⟨(connect (connect s.conn).2).2, s.attemptIx + 1⟩ op h

/-- `read` under a first-attempt retryable failure with an exhausted budget. -/
lemma read_exhaust (env : Env) (q : Sum SqlQuery String) (s : ExecState)
    (e : JsErr) (hm : env.config.maxRetries ≤ 0)
    (he : env.queryAttempts s.attemptIx = Outcome.err e)
    (hr : isRetryable e = true) :
    read env q s =
      (Except.error (JsErr.error "Couchbase max retries exceeded"),
       ⟨(connect (connect (connect s.conn).2).2).2, s.attemptIx + 1⟩,
       [Event.connectCall (connect s.conn).1,
        Event.connectCall (connect (connect s.conn).2).1,
        Event.attempt (StoreOp.query (getSqlQuery q).sql),
        Event.connectCall (connect (connect (connect s.conn).2).2).1,
        Event.logError e]) := by
  simp only [read]
  rw [internalQuery_exhaust env (getSqlQuery q).sql env.config.maxRetries
    ⟨(connect s.conn).2, s.attemptIx⟩ e hm he hr]
  rfl

/-- A retryable failure never carries the synthesized exhaustion message. -/
lemma retryable_not_max_message (e : JsErr) (hr : isRetryable e = true) :
    e ≠ JsErr.error "Couchbase max retries exceeded" := by
  intro h
  subst h
  exact absurd hr (by decide)

/-! Concrete configurations and store behaviours used as witnesses. -/

/-- A configuration with `maxRetries = 0`. -/
def cfg0 : CouchbaseConfig :=
  ⟨"", "Administrator", "pw", "testBucket", 0, "couchbase://localhost", ""⟩

/-- A configuration with `maxRetries = 3`. -/
def cfg3 : CouchbaseConfig :=
  ⟨"", "Administrator", "pw", "testBucket", 3, "couchbase://localhost", ""⟩

/-- Fresh execution state: no handshakes yet and no attempts performed. -/
def initState : ExecState := ⟨⟨0, none, none⟩, 0⟩

/-- A store that fails every attempt with the transient code `"107"`;
configured `maxRetries = 3`. -/
def env107 : Env :=
  ⟨cfg3, fun _ => Outcome.err (JsErr.error "107"),
   fun _ => Outcome.err (JsErr.error "107")⟩

/-- A store that fails every attempt with the transient code `"107"`;
configured `maxRetries = 0`. -/
def env0 : Env :=
  ⟨cfg0, fun _ => Outcome.err (JsErr.error "107"),
   fun _ => Outcome.err (JsErr.error "107")⟩

/-- A store that always succeeds: queries return zero rows, key-value gets
return a document. -/
def envOkRows : Env :=
  ⟨cfg3, fun _ => Outcome.ok ⟨[]⟩,
   fun _ => Outcome.ok (KvResult.getRes (JsVal.str "doc"))⟩

/-- A store that always fails with a non-transient error. -/
def envFatal : Env :=
  ⟨cfg3, fun _ => Outcome.err (JsErr.error "syntax error near SELECT"),
   fun _ => Outcome.err (JsErr.other "boom")⟩

/-- Claim C1: for every non-negative integer retry budget `n` passed to
`internalQuery` (and `internalKeyValueStatement`), if every underlying store
attempt fails with a Retryable error, the executor performs exactly `n + 1`
underlying attempts and then raises the terminal
`"Couchbase max retries exceeded"` failure. -/
theorem retry_budget_n_plus_one_attempts (env : Env) (sql key : String)
    (value : JsVal) (deletion : Bool) (n : Nat) (s t : ExecState)
    (hq : ∀ j, ∃ e, env.queryAttempts j = Outcome.err e ∧ isRetryable e = true)
    (hkv : ∀ j, ∃ e, env.kvAttempts j = Outcome.err e ∧ isRetryable e = true) :
    countAttempts (internalQuery env sql (n : Int) s).2.2 = n + 1 ∧
    (internalQuery env sql (n : Int) s).1 =
      Except.error (JsErr.error "Couchbase max retries exceeded") ∧
    countAttempts
        (internalKeyValueStatement env key value deletion (n : Int) t).2.2 =
      n + 1 ∧
    (internalKeyValueStatement env key value deletion (n : Int) t).1 =
      Except.error (JsErr.error "Couchbase max retries exceeded") := by
  obtain ⟨h1, h2⟩ := internalQuery_persistent env sql hq n s
  obtain ⟨h3, h4⟩ := internalKV_persistent env key value deletion hkv n t
  exact ⟨h1, h2, h3, h4⟩

/-- Witness for C1 at `n = 2` against the always-"107" store: three
underlying attempts and the terminal failure, for both executors. -/
theorem retry_budget_n_plus_one_attempts_witness :
    (∀ j, ∃ e, env107.queryAttempts j = Outcome.err e ∧ isRetryable e = true) ∧
    (∀ j, ∃ e, env107.kvAttempts j = Outcome.err e ∧ isRetryable e = true) ∧
    countAttempts
        (internalQuery env107 "SELECT 1" ((2 : Nat) : Int) initState).2.2 = 3 ∧
    (internalQuery env107 "SELECT 1" ((2 : Nat) : Int) initState).1 =
      Except.error (JsErr.error "Couchbase max retries exceeded") ∧
    countAttempts
        (internalKeyValueStatement env107 "k" (JsVal.str "v") false
          ((2 : Nat) : Int) initState).2.2 = 3 ∧
    (internalKeyValueStatement env107 "k" (JsVal.str "v") false
        ((2 : Nat) : Int) initState).1 =
      Except.error (JsErr.error "Couchbase max retries exceeded") := by
  have hq : ∀ j, ∃ e, env107.queryAttempts j = Outcome.err e ∧
      isRetryable e = true := fun _ => ⟨JsErr.error "107", rfl, rfl⟩
  have hkv : ∀ j, ∃ e, env107.kvAttempts j = Outcome.err e ∧
      isRetryable e = true := fun _ => ⟨JsErr.error "107", rfl, rfl⟩
  have h := retry_budget_n_plus_one_attempts env107 "SELECT 1" "k"
    (JsVal.str "v") false 2 initState initState hq hkv
  exact ⟨hq, hkv, h.1, h.2.1, h.2.2.1, h.2.2.2⟩

/-- Counterexample to claim C2: with the budget argument `0` (a falsy value)
and a persistently retryable store, `internalQuery` does NOT retry with the
budget reset to the configured `maxRetries = 3` (which would take four or
more attempts): it performs exactly one attempt and raises the terminal
failure, because the `retry <= 0` guard throws before the falsy-reset
expression is ever evaluated. -/
theorem zero_budget_no_reset_counterexample :
    countAttempts (internalQuery env107 "SELECT 1" 0 initState).2.2 = 1 ∧
    countAttempts (internalQuery env107 "SELECT 1" 0 initState).2.2 ≠ 4 ∧
    (internalQuery env107 "SELECT 1" 0 initState).1 =
      Except.error (JsErr.error "Couchbase max retries exceeded") := by
  rw [internalQuery_exhaust env107 "SELECT 1" 0 initState (JsErr.error "107")
    (by omega) rfl rfl]
  simp

/-- Claim C2 as amended: when the retry budget argument is `0` (or negative)
and the underlying attempt fails with a Retryable error, the executor raises
the terminal `"Couchbase max retries exceeded"` failure immediately after a
single underlying attempt, without retrying; the reset-to-`maxRetries`
branch of the recursive call is unreachable for integer budgets because the
`retry <= 0` guard throws first. -/
theorem zero_budget_raises_immediately (env : Env) (sql : String)
    (retry : Int) (s : ExecState) (e : JsErr) (hle : retry ≤ 0)
    (he : env.queryAttempts s.attemptIx = Outcome.err e)
    (hr : isRetryable e = true) :
    (internalQuery env sql retry s).1 =
      Except.error (JsErr.error "Couchbase max retries exceeded") ∧
    countAttempts (internalQuery env sql retry s).2.2 = 1 := by
  rw [internalQuery_exhaust env sql retry s e hle he hr]
  simp

/-- Witness for the amended C2 at budget `0` against the always-"107" store. -/
theorem zero_budget_raises_immediately_witness :
    ((0 : Int) ≤ 0) ∧
    env107.queryAttempts initState.attemptIx =
      Outcome.err (JsErr.error "107") ∧
    isRetryable (JsErr.error "107") = true ∧
    (internalQuery env107 "q" 0 initState).1 =
      Except.error (JsErr.error "Couchbase max retries exceeded") ∧
    countAttempts (internalQuery env107 "q" 0 initState).2.2 = 1 := by
  have h := zero_budget_raises_immediately env107 "q" 0 initState
    (JsErr.error "107") (by omega) rfl rfl
  exact ⟨by omega, rfl, rfl, h.1, h.2⟩

/-- Counterexample to claim C3: with `maxRetries = 0` and a first attempt
failing with the transient code `"107"`, the terminal failure is raised
immediately after one attempt, but `connect()` IS invoked on the exhaustion
path: a `read` performs three handshakes in total (the facade's, the
executor's entry handshake, and the error handler's reconnect before the
throw), not one as the claim's "zero reconnects beyond the initial
connection" would require. -/
theorem exhaustion_path_reconnects_counterexample :
    countConnects (read env0 (Sum.inr "SELECT 1") initState).2.2 = 3 ∧
    countConnects (read env0 (Sum.inr "SELECT 1") initState).2.2 ≠ 1 ∧
    countAttempts (read env0 (Sum.inr "SELECT 1") initState).2.2 = 1 ∧
    (read env0 (Sum.inr "SELECT 1") initState).1 =
      Except.error (JsErr.error "Couchbase max retries exceeded") := by
  rw [read_exhaust env0 (Sum.inr "SELECT 1") initState (JsErr.error "107")
    (by decide) rfl rfl]
  simp

/-- Claim C3 as amended: with `maxRetries = 0`, when the first underlying
attempt fails with a matched transient error code, the terminal
`"Couchbase max retries exceeded"` failure is raised immediately after
exactly one underlying attempt, but `connect()` is invoked on the exhaustion
path: a `read` performs three handshakes in total, i.e. two reconnects
beyond the initial connection. -/
theorem maxRetries_zero_one_attempt_reconnects (env : Env)
    (q : Sum SqlQuery String) (s : ExecState) (e : JsErr)
    (hm : env.config.maxRetries = 0)
    (he : env.queryAttempts s.attemptIx = Outcome.err e)
    (hr : isRetryable e = true) :
    (read env q s).1 =
      Except.error (JsErr.error "Couchbase max retries exceeded") ∧
    countAttempts (read env q s).2.2 = 1 ∧
    countConnects (read env q s).2.2 = 3 := by
  rw [read_exhaust env q s e (by omega) he hr]
  simp

/-- Witness for the amended C3 against the `maxRetries = 0` always-"107"
store. -/
theorem maxRetries_zero_one_attempt_reconnects_witness :
    env0.config.maxRetries = 0 ∧
    env0.queryAttempts initState.attemptIx =
      Outcome.err (JsErr.error "107") ∧
    isRetryable (JsErr.error "107") = true ∧
    (read env0 (Sum.inl ⟨"SELECT 2"⟩) initState).1 =
      Except.error (JsErr.error "Couchbase max retries exceeded") ∧
    countAttempts (read env0 (Sum.inl ⟨"SELECT 2"⟩) initState).2.2 = 1 ∧
    countConnects (read env0 (Sum.inl ⟨"SELECT 2"⟩) initState).2.2 = 3 := by
  have h := maxRetries_zero_one_attempt_reconnects env0 (Sum.inl ⟨"SELECT 2"⟩)
    initState (JsErr.error "107") rfl rfl rfl
  exact ⟨rfl, rfl, rfl, h.1, h.2.1, h.2.2⟩

/-- Claim C4: calling `connect()` twice in succession performs two
independent network handshakes (it is not a cached no-op), and the handle
produced by the second call replaces the first as the stored bucket/cluster
handle used by subsequent operations. -/
theorem connect_twice_two_handshakes (s : ConnState) :
    (connect (connect s).2).2.handshakes = s.handshakes + 2 ∧
    (connect (connect s).2).1 ≠ (connect s).1 ∧
    (connect (connect s).2).2.bucket = some ((connect (connect s).2).1) ∧
    (connect (connect s).2).2.bucket ≠ some ((connect s).1) ∧
    (connect (connect s).2).2.cluster = some ((connect (connect s).2).1) := by
  refine ⟨rfl, ?_, rfl, ?_, rfl⟩
  · simp [connect]
  · simp [connect]

/-- Claim C5: in every execution of the retry executor, each underlying
attempt — in particular every retry after a failure classified Retryable —
is immediately preceded by a `connect()` handshake, so a handle observed
invalid is replaced before the next attempt and a stale handle is never
silently reused. -/
theorem retry_attempts_always_reconnect_first (env : Env) (sql : String)
    (retry : Int) (s : ExecState) :
    attemptsGuarded (internalQuery env sql retry s).2.2 = true :=
  guardedFrom_internalQuery env sql retry.toNat retry rfl s false

/-- Claim C6: for every failure classified Fatal (not retryable), exactly
one underlying attempt occurs, the failure triggers no reconnect (the only
handshake in the trace is the entry one preceding the attempt), and the
original error is re-raised unchanged. -/
theorem fatal_error_single_attempt_unchanged (env : Env) (sql : String)
    (retry : Int) (s : ExecState) (e : JsErr)
    (he : env.queryAttempts s.attemptIx = Outcome.err e)
    (hf : isRetryable e = false) :
    (internalQuery env sql retry s).1 = Except.error e ∧
    countAttempts (internalQuery env sql retry s).2.2 = 1 ∧
    (internalQuery env sql retry s).2.2 =
      [Event.connectCall (connect s.conn).1,
       Event.attempt (StoreOp.query sql), Event.logUnexpected e] := by
  rw [internalQuery_fatal env sql retry s e he hf]
  simp

/-- Witness for C6 against a store failing with a non-transient message. -/
theorem fatal_error_single_attempt_unchanged_witness :
    envFatal.queryAttempts initState.attemptIx =
      Outcome.err (JsErr.error "syntax error near SELECT") ∧
    isRetryable (JsErr.error "syntax error near SELECT") = false ∧
    (internalQuery envFatal "SELECT" 3 initState).1 =
      Except.error (JsErr.error "syntax error near SELECT") ∧
    countAttempts (internalQuery envFatal "SELECT" 3 initState).2.2 = 1 := by
  have h := fatal_error_single_attempt_unchanged envFatal "SELECT" 3 initState
    (JsErr.error "syntax error near SELECT") rfl rfl
  exact ⟨rfl, rfl, h.1, h.2.1⟩

/-- Claim C7: the classifier marks a failure Retryable iff its message
exactly equals one of the transient codes `"107"`, `"100"`, `"170"`, `"201"`
or the literal `"parent cluster object has been closed"`; all other failures
are Fatal, and a thrown value that is not an `Error` is matched on its
string coercion. -/
theorem classifier_retryable_iff :
    (∀ e : JsErr, isRetryable e = true ↔
      (messageOf e = "107" ∨ messageOf e = "100" ∨ messageOf e = "170" ∨
       messageOf e = "201" ∨
       messageOf e = "parent cluster object has been closed")) ∧
    (∀ s : String, messageOf (JsErr.other s) = s) := by
  constructor
  · intro e
    simp [isRetryable, retryErrorCodes, staleClusterMessage, or_assoc]
  · intro s
    rfl

/-- Claim C8: for a query whose underlying store execution succeeds, `read`
returns the `rows` of the result; in particular a result with zero rows
yields the empty list, not a failure. -/
theorem read_returns_rows_on_success (env : Env) (q : Sum SqlQuery String)
    (s : ExecState) (rows : List JsVal)
    (h : env.queryAttempts s.attemptIx = Outcome.ok ⟨rows⟩) :
    (read env q s).1 = Except.ok rows := by
  simp only [read]
  rw [internalQuery_success env (getSqlQuery q).sql env.config.maxRetries
    ⟨(connect s.conn).2, s.attemptIx⟩ ⟨rows⟩ h]
  rfl

/-- Witness for C8: a store returning zero rows makes `read` yield the empty
sequence, not a failure. -/
theorem read_returns_rows_on_success_witness :
    envOkRows.queryAttempts initState.attemptIx = Outcome.ok ⟨[]⟩ ∧
    (read envOkRows (Sum.inr "SELECT 1") initState).1 = Except.ok [] := by
  exact ⟨rfl,
    read_returns_rows_on_success envOkRows (Sum.inr "SELECT 1") initState []
      rfl⟩

/-- Claim C9: for every key `k` and falsy value `v`, the key-value
`insert {id := k, value := v}` does not upsert: every underlying attempt it
performs is a key-value `get` on `k`, and when the store call succeeds the
call returns that get result instead of writing. -/
theorem insert_falsy_value_performs_get (env : Env) (k : String) (v : JsVal)
    (s : ExecState) (hv : truthy v = false) :
    (∀ op, Event.attempt op ∈ (insert env k v s).2.2 →
      op = StoreOp.kvGet k) ∧
    (∀ r, env.kvAttempts s.attemptIx = Outcome.ok r →
      (insert env k v s).1 = Except.ok r) := by
  have hdisp : kvDispatch k v false = StoreOp.kvGet k := by
    simp [kvDispatch, hv]
  constructor
  · intro op hmem
    simp only [insert] at hmem
    rcases List.mem_cons.mp hmem with h | h
    · cases h
    · have := internalKV_ops env k v false env.config.maxRetries.toNat
        env.config.maxRetries rfl ⟨(connect s.conn).2, s.attemptIx⟩ op h
      rw [this, hdisp]
  · intro r hok
    simp only [insert]
    rw [internalKV_success env k v false env.config.maxRetries
      ⟨(connect s.conn).2, s.attemptIx⟩ r hok]

/-- Witness for C9 at the falsy value `null` against a store whose get
succeeds with a document. -/
theorem insert_falsy_value_performs_get_witness :
    truthy JsVal.null = false ∧
    envOkRows.kvAttempts initState.attemptIx =
      Outcome.ok (KvResult.getRes (JsVal.str "doc")) ∧
    (insert envOkRows "k" JsVal.null initState).1 =
      Except.ok (KvResult.getRes (JsVal.str "doc")) ∧
    (∀ op, Event.attempt op ∈ (insert envOkRows "k" JsVal.null initState).2.2 →
      op = StoreOp.kvGet "k") := by
  have h := insert_falsy_value_performs_get envOkRows "k" JsVal.null
    initState rfl
  exact ⟨rfl, rfl, h.2 (KvResult.getRes (JsVal.str "doc")) rfl, h.1⟩

/-- Claim C10: whenever the retry budget is exhausted on a Retryable
failure, the surfaced error is a freshly constructed `Error` whose message
is exactly `"Couchbase max retries exceeded"`; the last underlying error is
logged (`console.error`) but is neither propagated nor equal to the
surfaced error — for both `internalQuery` and `internalKeyValueStatement`. -/
theorem exhaustion_raises_fresh_error (env : Env) (sql key : String)
    (value : JsVal) (deletion : Bool) (retry : Int) (s t : ExecState)
    (e e2 : JsErr) (hle : retry ≤ 0)
    (he : env.queryAttempts s.attemptIx = Outcome.err e)
    (hr : isRetryable e = true)
    (hkv : env.kvAttempts t.attemptIx = Outcome.err e2)
    (hr2 : isRetryable e2 = true) :
    (internalQuery env sql retry s).1 =
      Except.error (JsErr.error "Couchbase max retries exceeded") ∧
    (internalQuery env sql retry s).1 ≠ Except.error e ∧
    Event.logError e ∈ (internalQuery env sql retry s).2.2 ∧
    (internalKeyValueStatement env key value deletion retry t).1 =
      Except.error (JsErr.error "Couchbase max retries exceeded") ∧
    (internalKeyValueStatement env key value deletion retry t).1 ≠
      Except.error e2 ∧
    Event.logError e2 ∈
      (internalKeyValueStatement env key value deletion retry t).2.2 := by
  rw [internalQuery_exhaust env sql retry s e hle he hr,
    internalKV_exhaust env key value deletion retry t e2 hle hkv hr2]
  refine ⟨rfl, ?_, by simp, rfl, ?_, by simp⟩
  · intro hcontra
    injection hcontra with h
    exact retryable_not_max_message e hr h.symm
  · intro hcontra
    injection hcontra with h
    exact retryable_not_max_message e2 hr2 h.symm

/-- Witness for C10 at budget `0` against the always-"107" store. -/
theorem exhaustion_raises_fresh_error_witness :
    ((0 : Int) ≤ 0) ∧
    env107.queryAttempts initState.attemptIx =
      Outcome.err (JsErr.error "107") ∧
    env107.kvAttempts initState.attemptIx =
      Outcome.err (JsErr.error "107") ∧
    isRetryable (JsErr.error "107") = true ∧
    (internalQuery env107 "SELECT 3" 0 initState).1 =
      Except.error (JsErr.error "Couchbase max retries exceeded") ∧
    (internalQuery env107 "SELECT 3" 0 initState).1 ≠
      Except.error (JsErr.error "107") ∧
    Event.logError (JsErr.error "107") ∈
      (internalQuery env107 "SELECT 3" 0 initState).2.2 ∧
    (internalKeyValueStatement env107 "k" JsVal.null true 0 initState).1 =
      Except.error (JsErr.error "Couchbase max retries exceeded") := by
  have h := exhaustion_raises_fresh_error env107 "SELECT 3" "k" JsVal.null
    true 0 initState initState (JsErr.error "107") (JsErr.error "107")
    (by omega) rfl rfl rfl rfl
  exact ⟨by omega, rfl, rfl, rfl, h.1, h.2.1, h.2.2.1, h.2.2.2.1⟩

end Couchbase
